import Mathlib

/-!
Verification development for the ai_ops_assistant task-orchestration pipeline.

The Python sources are shallowly embedded as Lean definitions:

- Python values that flow through dynamically typed dictionaries are modeled by
  the inductive type `PyVal`; Python dicts become insertion-ordered association
  lists (`PyDict`), with `dictSet` mirroring in-place assignment (update the
  existing key in place, otherwise append).
- `time.time()` is an explicit integer-valued clock parameter threaded through
  the cache operations.
- Network calls made through the requests library are oracles: an inductive
  response type enumerates the outcomes the source discriminates on (status
  200 with parsed body, status 403, other statuses, a raised exception), and
  each modeled call consumes one oracle value.
- The hashlib md5 digest and the re.search regular-expression matcher are
  opaque function parameters, since the source only feeds their outputs onward.
- Exceptions are Except values; functions that the source guarantees cannot
  raise are total.

file map: the namespaces Config, Utils, BaseTool, GitHubTool, WeatherTool,
LLMClient, PlannerAgent, ExecutorAgent and VerifierAgent mirror the Python
modules of the same names; RefModel re-models the cache of base_tool.py with an
explicit heap in order to capture Python reference semantics (dict aliasing).
-/

/-- Model of a Python runtime value as it appears in the JSON-like dictionaries
this program passes around. Floats are carried as exact rationals: no claim in
this development performs float arithmetic, the values only flow through. -/
inductive PyVal where
  | s (v : String)
  | i (v : Int)
  | f (v : ℚ)
  | b (v : Bool)
  | null
  | lst (vs : List PyVal)
  | dict (d : List (String × PyVal))

/-- A Python dict with string keys, in insertion order. -/
abbrev PyDict := List (String × PyVal)

/-- Python d[k] = v: replace the value in place when the key exists, otherwise
append the new pair at the end (Python dicts preserve insertion order). -/
def dictSet {β : Type} (d : List (String × β)) (k : String) (v : β) :
    List (String × β) :=
  match d with
  | [] => [(k, v)]
  | (k1, v1) :: rest => if k1 = k then (k, v) :: rest else (k1, v1) :: dictSet rest k v

/-- Python d.get(k, default). -/
def pyGetD (d : PyDict) (k : String) (dflt : PyVal) : PyVal :=
  (List.lookup k d).getD dflt

/-- Python k in d. -/
def pyHasKey (d : PyDict) (k : String) : Bool :=
  (List.lookup k d).isSome

/-- Projection used in theorem statements: the string carried by a PyVal
(empty for non-strings). -/
def pyStr : PyVal → String
  | .s v => v
  | _ => ""

/-- Python str(v), abstracted: only the string and integer cases are ever
interpolated by the modeled code paths. -/
def pyStrOf : PyVal → String
  | .s v => v
  | .i v => toString v
  | .f v => toString v
  | .b v => if v then "True" else "False"
  | .null => "None"
  | .lst _ => "[...]"
  | .dict _ => "\x7b...\x7d"

/-- Python s.lower(), over the character list (String.toLower itself does not
reduce in the kernel). -/
def pyLower (s : String) : String := String.mk (s.data.map Char.toLower)

/-- Contiguous-sublist test on character lists. -/
def subList (n : List Char) : List Char → Bool
  | [] => n.isEmpty
  | c :: rest => n.isPrefixOf (c :: rest) || subList n rest

/-- Python needle in haystack (substring containment). -/
def pyIn (needle haystack : String) : Bool :=
  subList needle.data haystack.data

/-- Python s.strip(). -/
def pyStrip (s : String) : String :=
  String.mk (((s.data.dropWhile Char.isWhitespace).reverse.dropWhile
    Char.isWhitespace).reverse)

/-- Python s.title(): first character of each alphabetic run uppercased, the
rest lowercased. -/
def pyTitle (s : String) : String :=
  String.mk ((s.data.foldl
    (fun (acc : List Char × Bool) c =>
      if c.isAlpha then
        (acc.1 ++ [if acc.2 then c.toLower else c.toUpper], true)
      else (acc.1 ++ [c], false))
    ([], false)).1)

/-- Python s.split() (split on whitespace runs, dropping empty pieces). -/
def pySplit (s : String) : List String :=
  let groups := s.data.foldr
    (fun c (acc : List (List Char)) =>
      if c.isWhitespace then [] :: acc
      else
        match acc with
        | [] => [[c]]
        | g :: rest => (c :: g) :: rest) []
  (groups.filter (fun g => !g.isEmpty)).map String.mk

namespace Config

/-- config.py: MAX_RETRIES = 3. -/
def MAX_RETRIES : Nat := 3

/-- config.py: CACHE_TTL = 300 (the per-tool default lives in BaseTool). -/
def CACHE_TTL : Int := 300

/-- config.py: USE_FREE_LLM = True. -/
def USE_FREE_LLM : Bool := true

end Config

namespace Utils

/-- utils.py format_response output: the standardized response dict with keys
success, data, error, timestamp. The cached field models the "cached" key that
tool execute adds on a cache hit; format_response itself never sets it, which
the default value none (key absent) reflects. -/
structure FResp where
  success : Bool
  data : Option PyDict
  error : Option String
  timestamp : Int
  cached : Option Bool := Option.none

/-- utils.py format_response(data, success, error) at clock value now. -/
def format_response (data : Option PyDict) (success : Bool) (error : Option String)
    (now : Int) : FResp :=
  { success := success, data := data, error := error, timestamp := now }

/-- utils.py retry_on_failure inner loop: attempt-indexed calls to a stateful,
possibly raising body f. Returns the outcome (ok none models the Python
return None after an exhausted loop, unreachable for positive fuel), the final
state, and the number of invocations of f. The fuel argument counts the
remaining loop iterations of for attempt in range(max_retries). -/
def retryRun {σ α : Type} (f : Nat → σ → Except String α × σ) :
    Nat → σ → Nat → Except String (Option α) × σ × Nat
  | _, s, 0 => (Except.ok Option.none, s, 0)
  | attempt, s, Nat.succ fuel =>
    match f attempt s with
    | (Except.ok a, s1) => (Except.ok (some a), s1, 1)
    | (Except.error e, s1) =>
      if fuel = 0 then (Except.error e, s1, 1)
      else
        let r := retryRun f (attempt + 1) s1 fuel
        (r.1, r.2.1, r.2.2 + 1)

/-- utils.py retry_on_failure(max_retries)(func): run the body up to
max_retries times, re-raising the last exception. -/
def retry_on_failure {σ α : Type} (max_retries : Nat)
    (f : Nat → σ → Except String α × σ) (s : σ) :
    Except String (Option α) × σ × Nat :=
  retryRun f 0 s max_retries

/-- utils.py extract_query_from_text: fixed entity lists checked first-match
first, then the github/repo default, then "ai". -/
def extract_query_from_text (text : String) : String :=
  let text_lower := pyLower text
  let languages := ["python", "javascript", "java", "typescript", "go", "rust",
    "php", "swift", "c++", "c#"]
  match languages.find? (fun l => pyIn l text_lower) with
  | some l => l
  | Option.none =>
    let topics := ["machine learning", "artificial intelligence", "ai", "ml",
      "deep learning", "web development", "data science", "blockchain", "iot",
      "cloud computing", "devops"]
    match topics.find? (fun t => pyIn t text_lower) with
    | some t => t
    | Option.none =>
      if pyIn "github" text_lower || pyIn "repo" text_lower then "open source"
      else "ai"

/-- utils.py extract_city_from_text. The re.search calls are abstracted by the
oracle reSearch, which given a pattern string and the text returns the first
captured group when the pattern matches; everything else (the known-city scan,
title-casing, the at-most-three-words filter, the "London" default) follows the
source. -/
def extract_city_from_text (reSearch : String → String → Option String)
    (text : String) : String :=
  let cities := ["tokyo", "london", "new york", "paris", "berlin", "mumbai",
    "delhi", "beijing", "shanghai", "dubai", "singapore", "sydney",
    "san francisco", "los angeles", "chicago", "toronto", "moscow",
    "rome", "madrid", "amsterdam", "vienna", "prague", "budapest"]
  let text_lower := pyLower text
  match cities.find? (fun c => pyIn c text_lower) with
  | some c => pyTitle c
  | Option.none =>
    let patterns := ["in\\s+([A-Za-z\\s]+?)(?:\\s|$|,)",
      "at\\s+([A-Za-z\\s]+?)(?:\\s|$|,)",
      "for\\s+([A-Za-z\\s]+?)(?:\\s|$|,)",
      "weather\\s+in\\s+([A-Za-z\\s]+?)(?:\\s|$|,)"]
    let found := patterns.findSome? (fun p =>
      match reSearch p text_lower with
      | some m =>
        let potential_city := pyTitle (pyStrip m)
        if (pySplit potential_city).length ≤ 3 then some potential_city
        else Option.none
      | Option.none => Option.none)
    found.getD "London"

end Utils

namespace BaseTool

/-- base_tool.py: one stored cache item with keys result and timestamp. -/
structure CacheEntry where
  result : Utils.FResp
  timestamp : Int

/-- base_tool.py per-instance state: the cache dict and cache_ttl. -/
structure ToolState where
  cache : List (String × CacheEntry)
  cache_ttl : Int

/-- State of a freshly constructed tool: empty cache, ttl 300 seconds. -/
def ToolState.init : ToolState := { cache := [], cache_ttl := 300 }

/-- The ordering by key under which json.dumps(..., sort_keys=True) emits the
pairs of a dict. -/
def keyLe (p q : String × PyVal) : Prop := p.1 ≤ q.1

instance : DecidableRel keyLe := fun p q => inferInstanceAs (Decidable (p.1 ≤ q.1))

instance : IsTotal (String × PyVal) keyLe := ⟨fun p q => le_total p.1 q.1⟩

instance : IsTrans (String × PyVal) keyLe := ⟨fun _ _ _ h1 h2 => le_trans h1 h2⟩

/-- Key-canonicalization performed by json.dumps(kwargs, sort_keys=True). -/
def sortKeys (d : PyDict) : PyDict := List.insertionSort keyLe d

/-- JSON serialization of one value (module json). Escaping of special
characters inside strings is elided — the claims depend only on dumps being a
function of the canonicalized pair list. Nested dicts are rendered in insertion
order; tool parameter mappings are flat, so the nested sort_keys pass of the
real json.dumps never fires on the modeled inputs. -/
def dumpsVal : PyVal → String
  | .s v => "\"" ++ v ++ "\""
  | .i v => toString v
  | .f v => toString v
  | .b v => if v then "true" else "false"
  | .null => "null"
  | .lst vs => "[" ++ String.intercalate ", " (vs.attach.map (fun x => dumpsVal x.1)) ++ "]"
  | .dict d => "\x7b" ++ String.intercalate ", "
      (d.attach.map (fun x => "\"" ++ x.1.1 ++ "\": " ++ dumpsVal x.1.2)) ++ "\x7d"
decreasing_by
· have h := List.sizeOf_lt_of_mem x.2
  simp only [PyVal.lst.sizeOf_spec]
  omega
· obtain ⟨⟨k, v⟩, hm⟩ := x
  have h := List.sizeOf_lt_of_mem hm
  simp only [Prod.mk.sizeOf_spec] at h
  simp only [PyVal.dict.sizeOf_spec]
  omega

/-- json.dumps(kwargs, sort_keys=True) for a parameter mapping. -/
def json_dumps_sorted (d : PyDict) : String :=
  "\x7b" ++ String.intercalate ", "
    ((sortKeys d).map (fun p => "\"" ++ p.1 ++ "\": " ++ dumpsVal p.2)) ++ "\x7d"

/-- base_tool.py get_cache_key: md5 digest (opaque oracle) of the
canonicalized JSON form of the parameters. -/
def get_cache_key (md5 : String → String) (kwargs : PyDict) : String :=
  md5 (json_dumps_sorted kwargs)

/-- base_tool.py get_cached_result at clock value now: serve the stored result
while now - stored_at < cache_ttl, otherwise behave as if absent. -/
def get_cached_result (st : ToolState) (cache_key : String) (now : Int) :
    Option Utils.FResp :=
  match List.lookup cache_key st.cache with
  | some item => if now - item.timestamp < st.cache_ttl then some item.result else Option.none
  | Option.none => Option.none

/-- base_tool.py cache_result at clock value now. -/
def cache_result (st : ToolState) (cache_key : String) (result : Utils.FResp)
    (now : Int) : ToolState :=
  { st with cache := dictSet st.cache cache_key ⟨result, now⟩ }

end BaseTool

namespace GitHubTool

/-- One repository item of the parsed GitHub search response body, with the
optional JSON fields the source reads defensively. -/
structure RawRepo where
  name : String
  full_name : String
  description : Option String
  stargazers_count : Int
  forks_count : Int
  language : Option String
  html_url : String
  created_at : String
  updated_at : String
  license_name : Option String
  topics : List String

/-- Oracle for the requests.get call against the GitHub search endpoint:
status 200 with a parsed body, status 403 (rate limited), any other status,
or a raised transport exception. -/
inductive Resp where
  | ok (items : List RawRepo) (total_count : Int)
  | forbidden
  | errStatus (code : Nat)
  | exn (msg : String)

/-- github_tool.py lines 59-72: the per-repository formatting loop. -/
def formatRepo (r : RawRepo) : PyVal :=
  .dict [("name", .s r.name),
    ("full_name", .s r.full_name),
    ("description", .s (r.description.getD "No description")),
    ("stars", .i r.stargazers_count),
    ("forks", .i r.forks_count),
    ("language", .s (r.language.getD "Not specified")),
    ("url", .s r.html_url),
    ("created_at", .s (String.mk (r.created_at.data.take 10))),
    ("updated_at", .s (String.mk (r.updated_at.data.take 10))),
    ("license", match r.license_name with
      | some n => .s n
      | Option.none => .null),
    ("topics", .lst (r.topics.map .s))]

/-- github_tool.py _get_fallback_data: deterministic mock repositories derived
from the query, sliced to per_page items. -/
def get_fallback_data (now : Int) (query : PyVal) (per_page : Int) : Utils.FResp :=
  let q := pyStrOf query
  let mock_repos : List PyVal :=
    [.dict [("name", .s (q ++ "-project-1")),
        ("full_name", .s ("user/" ++ q ++ "-project-1")),
        ("description", .s ("A sample " ++ q ++ " project demonstrating best practices")),
        ("stars", .i 150), ("forks", .i 30), ("language", .s "Python"),
        ("url", .s ("https://github.com/example/" ++ q ++ "-project-1")),
        ("created_at", .s "2023-01-15"), ("updated_at", .s "2024-12-20"),
        ("license", .s "MIT"),
        ("topics", .lst [.s q, .s "example", .s "demo"])],
      .dict [("name", .s (q ++ "-project-2")),
        ("full_name", .s ("org/" ++ q ++ "-project-2")),
        ("description", .s ("Production-ready " ++ q ++ " application")),
        ("stars", .i 89), ("forks", .i 15), ("language", .s "JavaScript"),
        ("url", .s ("https://github.com/example/" ++ q ++ "-project-2")),
        ("created_at", .s "2023-05-20"), ("updated_at", .s "2024-11-10"),
        ("license", .s "Apache-2.0"),
        ("topics", .lst [.s q, .s "web", .s "application"])],
      .dict [("name", .s (q ++ "-project-3")),
        ("full_name", .s ("company/" ++ q ++ "-project-3")),
        ("description", .s ("Enterprise " ++ q ++ " framework with extensive documentation")),
        ("stars", .i 256), ("forks", .i 45), ("language", .s "Python"),
        ("url", .s ("https://github.com/example/" ++ q ++ "-project-3")),
        ("created_at", .s "2022-11-30"), ("updated_at", .s "2024-12-15"),
        ("license", .s "GPL-3.0"),
        ("topics", .lst [.s q, .s "framework", .s "enterprise"])]].take per_page.toNat
  Utils.format_response
    (some [("query", query),
      ("repositories", .lst mock_repos),
      ("total_count", .i (mock_repos.length * 50)),
      ("count", .i mock_repos.length),
      ("source", .s "fallback_data"),
      ("note", .s "Using fallback data (API unavailable)")])
    true Option.none now

/-- github_tool.py validate_parameters: only presence of the query key. -/
def validate_parameters (kwargs : PyDict) : Bool := pyHasKey kwargs "query"

/-- github_tool.py execute (the undecorated body) at clock value now, with the
md5 digest oracle and one network-response oracle value. Returns the result
dict, the tool state after the call, and whether the network request to the
provider was issued. The source catches every provider failure inside its own
try block, so the body itself never raises for provider errors. -/
def execute (md5 : String → String) (resp : Resp) (now : Int)
    (st : BaseTool.ToolState) (kwargs : PyDict) :
    Utils.FResp × BaseTool.ToolState × Bool :=
  let cache_key := BaseTool.get_cache_key md5 kwargs
  match BaseTool.get_cached_result st cache_key now with
  | some cached_result => ({ cached_result with cached := some true }, st, false)
  | Option.none =>
    let query := pyGetD kwargs "query" (.s "python")
    let per_page : Int :=
      match List.lookup "per_page" kwargs with
      | some (.i v) => min v 30
      | _ => 5
    match resp with
    | .ok items total_count =>
      let repositories := items.map formatRepo
      let result := Utils.format_response
        (some [("query", query),
          ("repositories", .lst repositories),
          ("total_count", .i total_count),
          ("count", .i repositories.length),
          ("source", .s "github_api")])
        true Option.none now
      (result, BaseTool.cache_result st cache_key result now, true)
    | .forbidden => (get_fallback_data now query per_page, st, true)
    | .errStatus code =>
      (Utils.format_response Option.none false
        (some ("GitHub API error: " ++ toString code)) now, st, true)
    | .exn _ => (get_fallback_data now query per_page, st, true)

end GitHubTool

namespace WeatherTool

/-- The fields the source reads from the first geocoding result. -/
structure GeoLoc where
  latitude : ℚ
  longitude : ℚ
  country : Option String
  admin1 : Option String

/-- Oracle for the two-stage Open-Meteo call: a raised exception or a non-200
status in either stage, an empty geocoding result list, or full success with
the parsed current-weather dict. -/
inductive Resp where
  | geoRaise (msg : String)
  | geoStatus (code : Nat)
  | geoNoResults
  | wRaise (loc : GeoLoc) (msg : String)
  | wStatus (loc : GeoLoc) (code : Nat)
  | wOk (loc : GeoLoc) (current : PyDict)

/-- The fields the source reads from an OpenWeatherMap 200 response. -/
structure OWData where
  name : String
  sys_country : String
  temp : ℚ
  feels_like : ℚ
  humidity : ℚ
  weather_main : String
  weather_description : String
  wind_speed : ℚ
  pressure : ℚ

/-- Oracle for the OpenWeatherMap call of _get_openweather_data: 200 with a
parsed body, another status (no early return), or a raised exception. -/
inductive OWResp where
  | ok (data : OWData)
  | errStatus (code : Nat)
  | exn (msg : String)

/-- weather_tool.py _get_weather_condition: the WMO code table. Non-integer
codes find no key and fall to the "Unknown" default. -/
def get_weather_condition (code : PyVal) : String :=
  match code with
  | .i v =>
    if v = 0 then "Clear sky"
    else if v = 1 then "Mainly clear"
    else if v = 2 then "Partly cloudy"
    else if v = 3 then "Overcast"
    else if v = 45 then "Fog"
    else if v = 48 then "Depositing rime fog"
    else if v = 51 then "Light drizzle"
    else if v = 53 then "Moderate drizzle"
    else if v = 55 then "Dense drizzle"
    else if v = 61 then "Slight rain"
    else if v = 63 then "Moderate rain"
    else if v = 65 then "Heavy rain"
    else if v = 71 then "Slight snow"
    else if v = 73 then "Moderate snow"
    else if v = 75 then "Heavy snow"
    else if v = 80 then "Slight rain showers"
    else if v = 81 then "Moderate rain showers"
    else if v = 82 then "Violent rain showers"
    else if v = 95 then "Thunderstorm"
    else if v = 96 then "Thunderstorm with slight hail"
    else if v = 99 then "Thunderstorm with heavy hail"
    else "Unknown"
  | _ => "Unknown"

/-- weather_tool.py _get_fallback_data: the mock per-city table with the
generic default row. -/
def get_fallback_data (now : Int) (city : PyVal) : Utils.FResp :=
  let cityTitle := pyTitle (pyStrOf city)
  let row : ℚ × String × ℚ × ℚ :=
    if cityTitle = "Tokyo" then (51/2, "Clear sky", 60, 123/10)
    else if cityTitle = "London" then (14, "Overcast", 85, 76/5)
    else if cityTitle = "New York" then (22, "Partly cloudy", 55, 87/10)
    else if cityTitle = "Paris" then (39/2, "Light drizzle", 70, 21/2)
    else if cityTitle = "Berlin" then (16, "Moderate rain", 75, 64/5)
    else if cityTitle = "Mumbai" then (32, "Clear sky", 80, 13/2)
    else if cityTitle = "Sydney" then (49/2, "Sunny", 65, 71/5)
    else (20, "Unknown", 50, 10)
  Utils.format_response
    (some [("city", city),
      ("temperature", .f row.1),
      ("feels_like", .f row.1),
      ("humidity", .f row.2.2.1),
      ("condition", .s row.2.1),
      ("wind_speed", .f row.2.2.2),
      ("source", .s "fallback_data"),
      ("note", .s "Using fallback data (API unavailable)")])
    true Option.none now

/-- weather_tool.py _get_openweather_data with its network oracle: a 200
response is formatted and returned (never cached), anything else falls back. -/
def get_openweather_data (ow : OWResp) (now : Int) (city : PyVal) : Utils.FResp :=
  match ow with
  | .ok data =>
    Utils.format_response
      (some [("city", .s data.name),
        ("country", .s data.sys_country),
        ("temperature", .f data.temp),
        ("feels_like", .f data.feels_like),
        ("humidity", .f data.humidity),
        ("condition", .s data.weather_main),
        ("description", .s data.weather_description),
        ("wind_speed", .f data.wind_speed),
        ("pressure", .f data.pressure),
        ("source", .s "openweathermap_api")])
      true Option.none now
  | .errStatus _ => get_fallback_data now city
  | .exn _ => get_fallback_data now city

/-- weather_tool.py validate_parameters: only presence of the city key. -/
def validate_parameters (kwargs : PyDict) : Bool := pyHasKey kwargs "city"

/-- weather_tool.py execute (the undecorated body) at clock value now.
api_key models Config.OPENWEATHER_API_KEY, read from the environment with
default "". Only the full Open-Meteo success path stores into the cache;
every other branch leaves the cache untouched. -/
def execute (md5 : String → String) (resp : Resp) (ow : OWResp)
    (api_key : String) (now : Int) (st : BaseTool.ToolState) (kwargs : PyDict) :
    Utils.FResp × BaseTool.ToolState × Bool :=
  let cache_key := BaseTool.get_cache_key md5 kwargs
  match BaseTool.get_cached_result st cache_key now with
  | some cached_result => ({ cached_result with cached := some true }, st, false)
  | Option.none =>
    let city := pyGetD kwargs "city" (.s "London")
    match resp with
    | .wOk loc current =>
      let weather_condition := get_weather_condition (pyGetD current "weather_code" (.i 0))
      let result := Utils.format_response
        (some [("city", city),
          ("country", .s (loc.country.getD "")),
          ("region", .s (loc.admin1.getD "")),
          ("latitude", .f loc.latitude),
          ("longitude", .f loc.longitude),
          ("temperature", pyGetD current "temperature_2m" (.i 0)),
          ("feels_like", pyGetD current "apparent_temperature" (.i 0)),
          ("humidity", pyGetD current "relative_humidity_2m" (.i 0)),
          ("weather_code", pyGetD current "weather_code" (.i 0)),
          ("condition", .s weather_condition),
          ("wind_speed", pyGetD current "wind_speed_10m" (.i 0)),
          ("wind_direction", pyGetD current "wind_direction_10m" (.i 0)),
          ("units", .dict [("temperature", .s "°C"), ("wind_speed", .s "km/h")]),
          ("source", .s "open-meteo_api")])
        true Option.none now
      (result, BaseTool.cache_result st cache_key result now, true)
    | .geoRaise _ => (get_fallback_data now city, st, true)
    | .wRaise _ _ => (get_fallback_data now city, st, true)
    | .geoStatus _ =>
      if api_key ≠ "" then (get_openweather_data ow now city, st, true)
      else (get_fallback_data now city, st, true)
    | .geoNoResults =>
      if api_key ≠ "" then (get_openweather_data ow now city, st, true)
      else (get_fallback_data now city, st, true)
    | .wStatus _ _ =>
      if api_key ≠ "" then (get_openweather_data ow now city, st, true)
      else (get_fallback_data now city, st, true)

end WeatherTool

namespace LLMClient

/-- One step dict of a plan, with every key optional as in the raw dicts the
planner validates. -/
structure RawStep where
  step : Option Int
  description : Option String
  tool : Option String
  parameters : Option PyDict

/-- The plan dict produced by generate_plan: a step list plus reasoning. -/
structure PlanDict where
  plan : List RawStep
  reasoning : String
  note : Option String

/-- client.py: the GitHub keyword set of _generate_rule_based. -/
def github_keywords : List String :=
  ["github", "repo", "repository", "code", "project", "search", "find"]

/-- client.py: the weather keyword set of _generate_rule_based. -/
def weather_keywords : List String :=
  ["weather", "temp", "temperature", "forecast", "climate", "humid"]

/-- True when the lowercased input contains a GitHub keyword. -/
def githubTriggered (user_input : String) : Bool :=
  github_keywords.any (fun k => pyIn k (pyLower user_input))

/-- True when the lowercased input contains a weather keyword. -/
def weatherTriggered (user_input : String) : Bool :=
  weather_keywords.any (fun k => pyIn k (pyLower user_input))

/-- client.py _generate_rule_based: at most one step per keyword set, GitHub
first, then weather, with a default GitHub step when neither set matches.
reSearch is the regular-expression oracle of extract_city_from_text. -/
def generate_rule_based (reSearch : String → String → Option String)
    (user_input : String) : PlanDict :=
  let ghHit := githubTriggered user_input
  let wHit := weatherTriggered user_input
  let afterGh : List RawStep × Int × String :=
    if ghHit then
      let query := Utils.extract_query_from_text user_input
      let ghStep : RawStep :=
        { step := some 1,
          description := some ("Search GitHub for " ++ query ++ " repositories"),
          tool := some "github_tool",
          parameters := some [("query", .s query), ("per_page", .i 5)] }
      ([ghStep], 2, "User wants to search for " ++ query ++ " repositories. ")
    else ([], 1, "")
  let afterW : List RawStep × String :=
    if wHit then
      let city := Utils.extract_city_from_text reSearch user_input
      let wStep : RawStep :=
        { step := some afterGh.2.1,
          description := some ("Get current weather in " ++ city),
          tool := some "weather_tool",
          parameters := some [("city", .s city)] }
      (afterGh.1 ++ [wStep],
        afterGh.2.2 ++ "User wants weather information for " ++ city ++ ". ")
    else (afterGh.1, afterGh.2.2)
  if afterW.1.isEmpty then
    let defStep : RawStep :=
      { step := some 1,
        description := some "Search GitHub for trending AI repositories",
        tool := some "github_tool",
        parameters := some [("query", .s "artificial intelligence"), ("per_page", .i 5)] }
    { plan := [defStep],
      reasoning := "No specific task mentioned. Providing GitHub search as example.",
      note := Option.none }
  else { plan := afterW.1, reasoning := afterW.2, note := Option.none }

/-- client.py generate_plan. use_ollama is the environment-dependent result of
_check_ollama; when the Ollama path runs, its JSON output is the oracle
ollama_out (none models every Ollama failure mode, which falls back to the
rule-based generator). Malformed Ollama JSON that is not a plan-shaped dict is
outside this typed model; in the source it makes the planner raise and use its
fallback plan, which is also structurally valid. -/
def generate_plan (use_ollama : Bool) (ollama_out : Option PlanDict)
    (reSearch : String → String → Option String) (user_input : String) : PlanDict :=
  if use_ollama && Config.USE_FREE_LLM then
    match ollama_out with
    | some p => p
    | Option.none => generate_rule_based reSearch user_input
  else generate_rule_based reSearch user_input

/-- client.py verify_results output: the verification dict. -/
structure VerifDict where
  is_complete : Bool
  completeness_score : Int
  missing_data : List String
  suggestions : List String
  summary : String

end LLMClient

namespace ExecutorAgent

/-- One executor step result dict. Every key except success may be absent
depending on the branch that produced the dict, hence the Option fields. The
step key holds the whole step dict in the failure branches and the bare step
number in the success branch, so it is a PyVal. -/
structure ExecResult where
  success : Bool
  data : Option PyDict := Option.none
  error : Option String := Option.none
  timestamp : Option Int := Option.none
  cached : Option Bool := Option.none
  step : Option PyVal := Option.none
  tool : Option String := Option.none
  parameters : Option PyDict := Option.none

end ExecutorAgent

namespace LLMClient

/-- client.py verify_results: count successes against the total and map the
pair onto the fixed 100 / 50 / 0 scale. -/
def verify_results (results : List ExecutorAgent.ExecResult) : VerifDict :=
  let successful := (results.filter (fun r => r.success)).length
  let total := results.length
  let completeness : Int :=
    if total > 0 && successful == total then 100
    else if successful > 0 then 50
    else 0
  { is_complete := successful == total,
    completeness_score := completeness,
    missing_data := [],
    suggestions :=
      if successful == total then ["All requirements satisfied"]
      else ["Some steps failed"],
    summary := "Completed " ++ toString successful ++ "/" ++ toString total ++
      " steps successfully" }

end LLMClient

namespace PlannerAgent

open LLMClient

/-- Membership in the fixed registered-tool list of planner.py line 40. -/
def toolRegistered (t : String) : Bool := t == "github_tool" || t == "weather_tool"

/-- planner.py _validate_plan body of the per-step loop at index i: force the
step number to i+1, replace unknown tools by github_tool, materialize the
parameters dict, and fill the per-tool default parameters. -/
def validate_step (i : Nat) (s0 : RawStep) : RawStep :=
  let s1 : RawStep := { s0 with step := some ((i : Int) + 1) }
  let s2 : RawStep :=
    match s1.tool with
    | some t => if toolRegistered t then s1 else { s1 with tool := some "github_tool" }
    | Option.none => { s1 with tool := some "github_tool" }
  let s3 : RawStep :=
    match s2.parameters with
    | some _ => s2
    | Option.none => { s2 with parameters := some [] }
  if s3.tool == some "github_tool" then
    let ps0 := s3.parameters.getD []
    let ps1 := if pyHasKey ps0 "query" then ps0 else dictSet ps0 "query" (.s "python")
    let ps2 := if pyHasKey ps1 "per_page" then ps1 else dictSet ps1 "per_page" (.i 5)
    { s3 with parameters := some ps2 }
  else if s3.tool == some "weather_tool" then
    let ps0 := s3.parameters.getD []
    let ps1 := if pyHasKey ps0 "city" then ps0 else dictSet ps0 "city" (.s "London")
    { s3 with parameters := some ps1 }
  else s3

/-- planner.py _validate_plan: the enumerate loop over the steps. -/
def validateSteps : Nat → List RawStep → List RawStep
  | _, [] => []
  | i, s :: rest => validate_step i s :: validateSteps (i + 1) rest

/-- planner.py _validate_plan on a plan dict. -/
def validate_plan (p : PlanDict) : PlanDict :=
  { p with plan := validateSteps 0 p.plan }

/-- planner.py _create_fallback_plan (the except branch of create_plan). -/
def create_fallback_plan : PlanDict :=
  let fbStep : RawStep :=
    { step := some 1,
      description := some "Search GitHub repositories",
      tool := some "github_tool",
      parameters := some [("query", .s "python"), ("per_page", .i 5)] }
  { plan := [fbStep],
    reasoning := "Fallback plan created",
    note := some "Using fallback planning" }

/-- planner.py create_plan: generate, then validate. The except branch that
returns create_fallback_plan is unreachable in the pure model because the
embedded generate and validate are total. -/
def create_plan (use_ollama : Bool) (ollama_out : Option PlanDict)
    (reSearch : String → String → Option String) (user_input : String) : PlanDict :=
  validate_plan (generate_plan use_ollama ollama_out reSearch user_input)

/-- Parameter validity of one validated step, phrased through the per-tool
validate_parameters of the tools themselves. -/
def stepParamsOk (s : RawStep) : Bool :=
  match s.tool, s.parameters with
  | some "github_tool", some ps => GitHubTool.validate_parameters ps
  | some "weather_tool", some ps => WeatherTool.validate_parameters ps
  | _, _ => false

/-- Structural validity of a step list starting at 0-based position i: step
indices are i+1, i+2, ... (1-based and contiguous when i = 0), every tool name
is registered, and every required parameter is present. -/
def stepsValid : Nat → List RawStep → Bool
  | _, [] => true
  | i, s :: rest =>
    (s.step == some ((i : Int) + 1)) &&
    (match s.tool with
      | some t => toolRegistered t
      | Option.none => false) &&
    stepParamsOk s && stepsValid (i + 1) rest

/-- Structural validity of a whole plan: nonempty and valid from index 0. -/
def planValid (p : PlanDict) : Bool := !p.plan.isEmpty && stepsValid 0 p.plan

end PlannerAgent

namespace ExecutorAgent

open LLMClient

/-- Process state threaded through one executor step: the two tool singletons
owned by the executor, plus the running count of tool-body invocations, which
indexes into the network-response oracles (invocation number i observes the
i-th oracle value). -/
structure ExecSt where
  gh : BaseTool.ToolState
  wx : BaseTool.ToolState
  idx : Nat

/-- The step dict as a PyVal, used where executor failure dicts embed the
whole step under the step key. -/
def rawStepToPy (s : RawStep) : PyVal :=
  .dict ((match s.step with
      | some n => [("step", PyVal.i n)]
      | Option.none => []) ++
    (match s.description with
      | some d => [("description", PyVal.s d)]
      | Option.none => []) ++
    (match s.tool with
      | some t => [("tool", PyVal.s t)]
      | Option.none => []) ++
    (match s.parameters with
      | some ps => [("parameters", PyVal.dict ps)]
      | Option.none => []))

/-- The undecorated github_tool execute as a retry body: never raises (the
source catches every provider failure internally), advances the invocation
counter, updates the github tool state. -/
def ghBody (md5 : String → String) (ghResps : Nat → GitHubTool.Resp) (now : Int)
    (parameters : PyDict) : Nat → ExecSt → Except String Utils.FResp × ExecSt :=
  fun _attempt s =>
    let t := GitHubTool.execute md5 (ghResps s.idx) now s.gh parameters
    (Except.ok t.1, { s with gh := t.2.1, idx := s.idx + 1 })

/-- The undecorated weather_tool execute as a retry body. -/
def wxBody (md5 : String → String) (wxResps : Nat → WeatherTool.Resp)
    (owResps : Nat → WeatherTool.OWResp) (api_key : String) (now : Int)
    (parameters : PyDict) : Nat → ExecSt → Except String Utils.FResp × ExecSt :=
  fun _attempt s =>
    let t := WeatherTool.execute md5 (wxResps s.idx) (owResps s.idx) api_key now
      s.wx parameters
    (Except.ok t.1, { s with wx := t.2.1, idx := s.idx + 1 })

/-- tool.execute as the executor sees it: the body wrapped by the
retry_on_failure(max_retries=3, delay=1.0) decorator. -/
def decorated (body : Nat → ExecSt → Except String Utils.FResp × ExecSt)
    (s : ExecSt) : Except String (Option Utils.FResp) × ExecSt × Nat :=
  Utils.retry_on_failure 3 body s

/-- executor.py lines 47-49: the returned result dict after the executor adds
the step number and tool name. A step dict lacking the step key would make the
source raise KeyError here and retry; planner-produced steps always carry it,
and the model maps the absent case to an absent key. -/
def fromFResp (r : Utils.FResp) (stepd : RawStep) (tool_name : String) : ExecResult :=
  { success := r.success, data := r.data, error := r.error,
    timestamp := some r.timestamp, cached := r.cached,
    step := stepd.step.map PyVal.i, tool := some tool_name }

/-- executor.py lines 66-71: the dict returned when the last retry attempt
raised e. -/
def failedAfter (stepd : RawStep) (tool_name : String) (e : String) : ExecResult :=
  { success := false,
    error := some ("Failed after " ++ toString Config.MAX_RETRIES ++ " attempts: " ++ e),
    step := some (rawStepToPy stepd), tool := some tool_name }

/-- executor.py lines 44-77: the executor retry loop. call is the decorated
tool execute; the returned Nat is the total number of tool-body invocations.
An ok none outcome models the decorated function returning None (only possible
with a zero retry budget), on which the subscript assignment of line 48 raises
and the executor retries; the final fallthrough dict of lines 73-77 closes the
loop. -/
def step_loop (call : ExecSt → Except String (Option Utils.FResp) × ExecSt × Nat)
    (stepd : RawStep) (tool_name : String) :
    ExecSt → Nat → ExecResult × ExecSt × Nat
  | s, 0 =>
    ({ success := false, error := some "Execution failed",
       step := some (rawStepToPy stepd) }, s, 0)
  | s, fuel + 1 =>
    match call s with
    | (Except.ok (some r), s1, n) => (fromFResp r stepd tool_name, s1, n)
    | (Except.ok Option.none, s1, n) =>
      if fuel = 0 then
        (failedAfter stepd tool_name "NoneType object is not subscriptable", s1, n)
      else
        let rest := step_loop call stepd tool_name s1 fuel
        (rest.1, rest.2.1, n + rest.2.2)
    | (Except.error e, s1, n) =>
      if fuel = 0 then (failedAfter stepd tool_name e, s1, n)
      else
        let rest := step_loop call stepd tool_name s1 fuel
        (rest.1, rest.2.1, n + rest.2.2)

/-- executor.py execute_step: unknown-tool check, parameter validation, then
the bounded retry loop around the decorated tool execute. The third component
counts how many times the tool body ran during the step. -/
def execute_step (md5 : String → String) (ghResps : Nat → GitHubTool.Resp)
    (wxResps : Nat → WeatherTool.Resp) (owResps : Nat → WeatherTool.OWResp)
    (api_key : String) (now : Int) (st : ExecSt) (stepd : RawStep) :
    ExecResult × ExecSt × Nat :=
  let tool_name := stepd.tool
  let parameters := stepd.parameters.getD []
  if tool_name == some "github_tool" then
    if GitHubTool.validate_parameters parameters then
      step_loop (decorated (ghBody md5 ghResps now parameters)) stepd "github_tool"
        st Config.MAX_RETRIES
    else
      ({ success := false, error := some "Invalid parameters for github_tool",
         parameters := some parameters, step := some (rawStepToPy stepd) }, st, 0)
  else if tool_name == some "weather_tool" then
    if WeatherTool.validate_parameters parameters then
      step_loop (decorated (wxBody md5 wxResps owResps api_key now parameters))
        stepd "weather_tool" st Config.MAX_RETRIES
    else
      ({ success := false, error := some "Invalid parameters for weather_tool",
         parameters := some parameters, step := some (rawStepToPy stepd) }, st, 0)
  else
    ({ success := false,
       error := some ("Tool " ++ tool_name.getD "None" ++ " not found"),
       step := some (rawStepToPy stepd) }, st, 0)

end ExecutorAgent

namespace VerifierAgent

open LLMClient ExecutorAgent

/-- One entry of the formatted_data list of _build_final_output. -/
inductive FormattedItem where
  | github (query repositories total_count source : PyVal) (cached : Bool)
  | weather (city country temperature condition humidity wind_speed source : PyVal)
      (cached : Bool)

/-- verifier.py lines 79-105: project each successful result into its
formatted entry; results from other tools contribute nothing. -/
def format_data (rs : List ExecResult) : List FormattedItem :=
  rs.filterMap (fun r =>
    let data := r.data.getD []
    if r.tool == some "github_tool" then
      some (.github (pyGetD data "query" (.s ""))
        (pyGetD data "repositories" (.lst []))
        (pyGetD data "total_count" (.i 0))
        (pyGetD data "source" (.s "unknown"))
        (r.cached.getD false))
    else if r.tool == some "weather_tool" then
      some (.weather (pyGetD data "city" (.s ""))
        (pyGetD data "country" (.s ""))
        (pyGetD data "temperature" (.i 0))
        (pyGetD data "condition" (.s ""))
        (pyGetD data "humidity" (.i 0))
        (pyGetD data "wind_speed" (.i 0))
        (pyGetD data "source" (.s "unknown"))
        (r.cached.getD false))
    else Option.none)

/-- The task_execution / results / verification / metadata dict returned by
_build_final_output, flattened into one record. issues is the verification
block issues list (fed from missing_data), suggestions its suggestion
list. -/
structure BuiltOut where
  user_request : String
  status : String
  completeness_score : Int
  execution_time : Int
  total_steps : Nat
  executed_steps : Nat
  failed_steps : Nat
  results : List FormattedItem
  is_complete : Bool
  score : Int
  issues : List String
  suggestions : List String
  system : String
  version : String
  architecture : String
  timestamp : Int
  agents_used : List String

/-- verifier.py _build_final_output at clock value now. -/
def build_final_output (now : Int) (user_input : String) (plan : PlanDict)
    (successful_results failed_results : List ExecResult)
    (verification : VerifDict) : BuiltOut :=
  { user_request := user_input,
    status := if verification.is_complete then "completed" else "partial",
    completeness_score := verification.completeness_score,
    execution_time := now,
    total_steps := plan.plan.length,
    executed_steps := successful_results.length,
    failed_steps := failed_results.length,
    results := format_data successful_results,
    is_complete := verification.is_complete,
    score := verification.completeness_score,
    issues := verification.missing_data,
    suggestions := verification.suggestions,
    system := "AI Operations Assistant",
    version := "1.0.0",
    architecture := "multi-agent",
    timestamp := now,
    agents_used := ["planner", "executor", "verifier"] }

/-- The final_output value of a verifier report: the flat failure dict of
_handle_all_failed, or the structured output of _build_final_output. -/
inductive FinalOutput where
  | failed (status : String) (user_request : String) (errors : List String)
      (suggestions : List String)
  | built (b : BuiltOut)

/-- The summary block the verifier adds next to verification and final_output
(absent in the all-failed branch). -/
structure SummaryBlock where
  total_steps : Nat
  successful_steps : Nat
  failed_steps : Nat
  completeness_score : Int

/-- The full dict returned by VerifierAgent.verify_results. -/
structure Report where
  verification : VerifDict
  final_output : FinalOutput
  summary : Option SummaryBlock

/-- verifier.py _handle_all_failed: fixed verification block, error list drawn
from the failed results in order, fixed suggestion lists. -/
def handle_all_failed (failed_results : List ExecResult) (user_input : String) :
    Report :=
  { verification :=
      { is_complete := false,
        completeness_score := 0,
        missing_data := ["All execution steps failed"],
        suggestions := ["Check API availability", "Verify parameters",
          "Try different tools"],
        summary := "Failed to execute task: " ++ user_input },
    final_output := .failed "failed" user_input
      (failed_results.map (fun r => r.error.getD "Unknown error"))
      ["Try rephrasing your request",
        "Check if the requested information is available",
        "Try a simpler request first"],
    summary := Option.none }

/-- verifier.py verify_results at clock value now: split the results, route
everything-failed to _handle_all_failed, otherwise score through the LLM
client and build the structured output. -/
def verify_results (now : Int) (user_input : String) (plan : PlanDict)
    (results : List ExecResult) : Report :=
  let successful_results := results.filter (fun r => r.success)
  let failed_results := results.filter (fun r => !r.success)
  if successful_results.isEmpty then handle_all_failed failed_results user_input
  else
    let verification := LLMClient.verify_results results
    let final_output := build_final_output now user_input plan successful_results
      failed_results verification
    { verification := verification,
      final_output := .built final_output,
      summary := some
        { total_steps := plan.plan.length,
          successful_steps := successful_results.length,
          failed_steps := failed_results.length,
          completeness_score := verification.completeness_score } }

end VerifierAgent

namespace RefModel

/-- A heap of Python dict objects; an address is an index into the heap. This
model captures the reference semantics of base_tool.py: cache_result stores
the address of the result dict, not a copy, and get_cached_result hands the
same address back to the caller. -/
abbrev Heap := List PyDict

/-- Dereference an address (empty dict for a dangling address, which the
theorems exclude by hypothesis). -/
def readObj (h : Heap) (a : Nat) : PyDict := (h.get? a).getD []

/-- Overwrite the object stored at an address. -/
def writeObj (h : Heap) (a : Nat) (o : PyDict) : Heap := h.set a o

/-- base_tool.py state under the heap model: the cache maps a fingerprint to
the address of the stored result dict plus the store timestamp. -/
structure ToolState where
  cache : List (String × Nat × Int)
  cache_ttl : Int

/-- base_tool.py get_cached_result under the heap model: returns the stored
address (no copy of the object is made). -/
def get_cached_result (st : ToolState) (cache_key : String) (now : Int) :
    Option Nat :=
  match List.lookup cache_key st.cache with
  | some e => if now - e.2 < st.cache_ttl then some e.1 else Option.none
  | Option.none => Option.none

/-- base_tool.py cache_result under the heap model: store the address of the
passed result dict. -/
def cache_result (st : ToolState) (cache_key : String) (addr : Nat) (now : Int) :
    ToolState :=
  { st with cache := dictSet st.cache cache_key (addr, now) }

/-- github_tool.py lines 24-28 (identical in weather_tool.py), the cache-hit
path of execute under the heap model: on a hit, write cached = True into the
dict object behind the returned address and hand that same address back. -/
def execute_cache_hit (h : Heap) (st : ToolState) (cache_key : String)
    (now : Int) : Option (Nat × Heap) :=
  match get_cached_result st cache_key now with
  | some addr =>
    some (addr, writeObj h addr (dictSet (readObj h addr) "cached" (PyVal.b true)))
  | Option.none => Option.none

/-- executor.py lines 47-49 under the heap model: the executor mutates the
result dict it received, writing the step number and tool name into it. -/
def executor_tag (h : Heap) (addr : Nat) (step_val : PyVal) (tool_name : String) :
    Heap :=
  let h1 := writeObj h addr (dictSet (readObj h addr) "step" step_val)
  writeObj h1 addr (dictSet (readObj h1 addr) "tool" (PyVal.s tool_name))

end RefModel

/-- Refinement definition following the claim wording for C1, not the source:
completeness_score = 100 × successes / total, rounded to one decimal place,
and 0 when the total is 0. -/
def specCompletenessScore (successful total : ℕ) : ℚ :=
  if total = 0 then 0
  else ((round ((100 * (successful : ℚ) / (total : ℚ)) * 10) : ℤ) : ℚ) / 10

namespace VerifierAgent

/-- Projection for theorem statements: the issues list of a report when the
structured final output was built (none in the all-failed branch, whose flat
dict has no issues key). -/
def reportIssues (rep : Report) : Option (List String) :=
  match rep.final_output with
  | .built b => some b.issues
  | .failed _ _ _ _ => Option.none

end VerifierAgent

section HelperLemmas

theorem lookup_dictSet_self {β : Type} (d : List (String × β)) (k : String) (v : β) :
    List.lookup k (dictSet d k v) = some v := by
  induction d with
  | nil => simp [dictSet, List.lookup]
  | cons p rest ih =>
    obtain ⟨k1, v1⟩ := p
    by_cases h : k1 = k
    · simp [dictSet, h, List.lookup]
    · have hb : (k == k1) = false := beq_eq_false_iff_ne.mpr (Ne.symm h)
      simp [dictSet, h, List.lookup, hb, ih]

theorem lookup_dictSet_ne {β : Type} (d : List (String × β)) (k k' : String) (v : β)
    (h : k' ≠ k) : List.lookup k' (dictSet d k v) = List.lookup k' d := by
  have hb : (k' == k) = false := beq_eq_false_iff_ne.mpr h
  induction d with
  | nil => simp [dictSet, List.lookup, hb]
  | cons p rest ih =>
    obtain ⟨k1, v1⟩ := p
    by_cases h1 : k1 = k
    · subst h1
      simp [dictSet, List.lookup, hb]
    · simp [dictSet, h1, List.lookup, ih]

theorem dictSet_length_of_absent {β : Type} (d : List (String × β)) (k : String)
    (v : β) (h : List.lookup k d = Option.none) :
    (dictSet d k v).length = d.length + 1 := by
  induction d with
  | nil => simp [dictSet]
  | cons p rest ih =>
    obtain ⟨k1, v1⟩ := p
    simp only [List.lookup] at h
    by_cases h1 : k1 = k
    · subst h1
      simp at h
    · have h2 : (k == k1) = false := by
        simp [Ne.symm h1]
      rw [h2] at h
      simp only [dictSet, h1, if_false, List.length_cons]
      rw [ih h]

theorem dictSet_length_ge {β : Type} (d : List (String × β)) (k : String) (v : β) :
    d.length ≤ (dictSet d k v).length := by
  induction d with
  | nil => simp [dictSet]
  | cons p rest ih =>
    obtain ⟨k1, v1⟩ := p
    by_cases h1 : k1 = k
    · simp [dictSet, h1]
    · simp only [dictSet, h1, if_false, List.length_cons]
      omega

end HelperLemmas

section C8Proof

/-- Strict key ordering used only to identify the two sorted pair lists. -/
def keyLt (p q : String × PyVal) : Prop := p.1 < q.1

instance : IsAntisymm (String × PyVal) keyLt :=
  ⟨fun _ _ h1 h2 => absurd (lt_trans h1 h2) (lt_irrefl _)⟩

theorem sortKeys_eq_of_perm {d1 d2 : PyDict} (hp : d1.Perm d2)
    (hn : (d1.map Prod.fst).Nodup) :
    BaseTool.sortKeys d1 = BaseTool.sortKeys d2 := by
  have hperm : (BaseTool.sortKeys d1).Perm (BaseTool.sortKeys d2) :=
    ((List.perm_insertionSort BaseTool.keyLe d1).trans hp).trans
      (List.perm_insertionSort BaseTool.keyLe d2).symm
  have hs1 : List.Sorted BaseTool.keyLe (BaseTool.sortKeys d1) :=
    List.sorted_insertionSort BaseTool.keyLe d1
  have hs2 : List.Sorted BaseTool.keyLe (BaseTool.sortKeys d2) :=
    List.sorted_insertionSort BaseTool.keyLe d2
  have hn1 : ((BaseTool.sortKeys d1).map Prod.fst).Nodup :=
    (((List.perm_insertionSort BaseTool.keyLe d1).map Prod.fst).nodup_iff).mpr hn
  have hn2 : ((BaseTool.sortKeys d2).map Prod.fst).Nodup :=
    (hperm.map Prod.fst).nodup_iff.mp hn1
  have key : ∀ (l : PyDict), List.Sorted BaseTool.keyLe l →
      ((l.map Prod.fst).Nodup) → List.Sorted keyLt l := by
    intro l hs hnd
    have hne : List.Pairwise (fun p q : String × PyVal => p.1 ≠ q.1) l :=
      List.pairwise_map.mp hnd
    exact (hs.and hne).imp (fun h => lt_of_le_of_ne h.1 h.2)
  exact List.eq_of_perm_of_sorted (r := keyLt) hperm
    (key _ hs1 hn1) (key _ hs2 hn2)

end C8Proof

/-- Claim C8: for all parameter mappings with identical key/value pairs in
different insertion order, the cache fingerprint is the same; determinism is
inherent in the functional embedding (get_cache_key is a function of the
mapping). The duplicate-free key hypothesis reflects that Python dict keys are
unique. -/
theorem C8_fingerprint_order_independent (md5 : String → String) (P1 P2 : PyDict)
    (hperm : P1.Perm P2) (hnodup : (P1.map Prod.fst).Nodup) :
    BaseTool.get_cache_key md5 P1 = BaseTool.get_cache_key md5 P2 := by
  unfold BaseTool.get_cache_key BaseTool.json_dumps_sorted
  rw [sortKeys_eq_of_perm hperm hnodup]

/-- Witness for C8 at the parameter mapping of a GitHub search step, in its
two insertion orders. -/
theorem C8_witness :
    (([("query", PyVal.s "python"), ("per_page", PyVal.i 5)] : PyDict).Perm
      [("per_page", PyVal.i 5), ("query", PyVal.s "python")]) ∧
    (([("query", PyVal.s "python"), ("per_page", PyVal.i 5)] : PyDict).map
      Prod.fst).Nodup ∧
    BaseTool.get_cache_key (fun s => s)
        [("query", PyVal.s "python"), ("per_page", PyVal.i 5)] =
      BaseTool.get_cache_key (fun s => s)
        [("per_page", PyVal.i 5), ("query", PyVal.s "python")] :=
  ⟨List.Perm.swap _ _ _, by decide,
    C8_fingerprint_order_independent (fun s => s) _ _ (List.Perm.swap _ _ _)
      (by decide)⟩

theorem get_cached_result_of_lookup_none (st : BaseTool.ToolState) (key : String)
    (now : Int) (h : List.lookup key st.cache = Option.none) :
    BaseTool.get_cached_result st key now = Option.none := by
  unfold BaseTool.get_cached_result
  rw [h]

theorem gh_execute_miss_net (md5 : String → String) (resp : GitHubTool.Resp)
    (now : Int) (st : BaseTool.ToolState) (kwargs : PyDict)
    (h : BaseTool.get_cached_result st (BaseTool.get_cache_key md5 kwargs) now =
      Option.none) :
    (GitHubTool.execute md5 resp now st kwargs).2.2 = true := by
  simp only [GitHubTool.execute, h]
  cases resp <;> rfl

theorem wx_execute_miss_net (md5 : String → String) (resp : WeatherTool.Resp)
    (ow : WeatherTool.OWResp) (api_key : String) (now : Int)
    (st : BaseTool.ToolState) (kwargs : PyDict)
    (h : BaseTool.get_cached_result st (BaseTool.get_cache_key md5 kwargs) now =
      Option.none) :
    (WeatherTool.execute md5 resp ow api_key now st kwargs).2.2 = true := by
  simp only [WeatherTool.execute, h]
  cases resp <;> (try rfl) <;>
    (by_cases hk : api_key = "" <;> simp [hk])

/-- Claim C7: a ToolOutcome stored at time T is served for a read at T-prime
with T-prime minus T under the ttl, and never served once the age reaches the
ttl, in which case a tool execute call issues the provider request again. -/
theorem C7_cache_freshness (st : BaseTool.ToolState) (r : Utils.FResp)
    (tStore tRead : Int) (md5 : String → String) (kwargs : PyDict)
    (resp : GitHubTool.Resp) :
    (tRead - tStore < st.cache_ttl →
      BaseTool.get_cached_result
        (BaseTool.cache_result st (BaseTool.get_cache_key md5 kwargs) r tStore)
        (BaseTool.get_cache_key md5 kwargs) tRead = some r) ∧
    (st.cache_ttl ≤ tRead - tStore →
      BaseTool.get_cached_result
        (BaseTool.cache_result st (BaseTool.get_cache_key md5 kwargs) r tStore)
        (BaseTool.get_cache_key md5 kwargs) tRead = Option.none ∧
      (GitHubTool.execute md5 resp tRead
        (BaseTool.cache_result st (BaseTool.get_cache_key md5 kwargs) r tStore)
        kwargs).2.2 = true) := by
  have hlook : List.lookup (BaseTool.get_cache_key md5 kwargs)
      (BaseTool.cache_result st (BaseTool.get_cache_key md5 kwargs) r tStore).cache =
      some ⟨r, tStore⟩ := by
    unfold BaseTool.cache_result
    exact lookup_dictSet_self st.cache _ _
  constructor
  · intro hfresh
    unfold BaseTool.get_cached_result
    rw [hlook]
    simp only [BaseTool.cache_result]
    rw [if_pos hfresh]
  · intro hstale
    have hmiss : BaseTool.get_cached_result
        (BaseTool.cache_result st (BaseTool.get_cache_key md5 kwargs) r tStore)
        (BaseTool.get_cache_key md5 kwargs) tRead = Option.none := by
      unfold BaseTool.get_cached_result
      rw [hlook]
      simp only [BaseTool.cache_result]
      rw [if_neg (by omega)]
    exact ⟨hmiss, gh_execute_miss_net md5 resp tRead _ kwargs hmiss⟩

/-- Witness for C7: a result stored at time 0 with the default 300-second ttl
is served at time 100 and is gone at time 300, where an execute call reaches
the provider again. -/
theorem C7_witness :
    (BaseTool.get_cached_result
      (BaseTool.cache_result BaseTool.ToolState.init "k"
        ⟨true, Option.none, Option.none, 0, Option.none⟩ 0) "k" 100 =
      some ⟨true, Option.none, Option.none, 0, Option.none⟩) ∧
    (BaseTool.get_cached_result
      (BaseTool.cache_result BaseTool.ToolState.init "k"
        ⟨true, Option.none, Option.none, 0, Option.none⟩ 0) "k" 300 =
      Option.none) ∧
    ((GitHubTool.execute (fun _ => "k") GitHubTool.Resp.forbidden 300
      (BaseTool.cache_result BaseTool.ToolState.init "k"
        ⟨true, Option.none, Option.none, 0, Option.none⟩ 0) []).2.2 = true) :=
  ⟨(C7_cache_freshness BaseTool.ToolState.init _ 0 100 (fun _ => "k") []
      GitHubTool.Resp.forbidden).1 (by decide),
    ((C7_cache_freshness BaseTool.ToolState.init _ 0 300 (fun _ => "k") []
      GitHubTool.Resp.forbidden).2 (by decide)).1,
    ((C7_cache_freshness BaseTool.ToolState.init _ 0 300 (fun _ => "k") []
      GitHubTool.Resp.forbidden).2 (by decide)).2⟩

/-- Counterexample for C3 as stated: after a live GitHub result is cached and
the identical call repeats within the ttl, the returned payload still carries
source = github_api in its data dict, not source = cached; the cache
provenance is signaled only by the separate top-level cached = True flag. -/
theorem C3_counterexample :
    pyStr (pyGetD
      (((GitHubTool.execute (fun _ => "k") (GitHubTool.Resp.ok [] 0) 10
        ((GitHubTool.execute (fun _ => "k") (GitHubTool.Resp.ok [] 0) 0
          BaseTool.ToolState.init [("query", PyVal.s "python")]).2.1)
        [("query", PyVal.s "python")]).1).data.getD [])
      "source" PyVal.null) = "github_api" ∧
    "github_api" ≠ "cached" ∧
    ((GitHubTool.execute (fun _ => "k") (GitHubTool.Resp.ok [] 0) 10
      ((GitHubTool.execute (fun _ => "k") (GitHubTool.Resp.ok [] 0) 0
        BaseTool.ToolState.init [("query", PyVal.s "python")]).2.1)
      [("query", PyVal.s "python")]).1).cached = some true ∧
    (GitHubTool.execute (fun _ => "k") (GitHubTool.Resp.ok [] 0) 10
      ((GitHubTool.execute (fun _ => "k") (GitHubTool.Resp.ok [] 0) 0
        BaseTool.ToolState.init [("query", PyVal.s "python")]).2.1)
      [("query", PyVal.s "python")]).2.2 = false :=
  ⟨rfl, by decide, rfl, rfl⟩

/-- Claim C3 amended: for every tool execute call whose parameter fingerprint
has a non-expired cache entry, the stored payload is returned with the
top-level cached flag set to True (its data, including the original source
tag, unchanged), the tool state is unchanged, and no network call occurs.
Stated for both tools. -/
theorem C3_amended_cache_hit_tagged (md5 : String → String) (now : Int)
    (stG stW : BaseTool.ToolState) (kwG kwW : PyDict) (rG rW : Utils.FResp)
    (respG : GitHubTool.Resp) (respW : WeatherTool.Resp)
    (ow : WeatherTool.OWResp) (api_key : String)
    (hG : BaseTool.get_cached_result stG (BaseTool.get_cache_key md5 kwG) now =
      some rG)
    (hW : BaseTool.get_cached_result stW (BaseTool.get_cache_key md5 kwW) now =
      some rW) :
    GitHubTool.execute md5 respG now stG kwG =
      ({ rG with cached := some true }, stG, false) ∧
    WeatherTool.execute md5 respW ow api_key now stW kwW =
      ({ rW with cached := some true }, stW, false) := by
  constructor
  · simp only [GitHubTool.execute, hG]
  · simp only [WeatherTool.execute, hW]

/-- Witness for C3 amended: a concrete hit on each tool cache. -/
theorem C3_witness :
    GitHubTool.execute (fun _ => "k") GitHubTool.Resp.forbidden 10
      (BaseTool.cache_result BaseTool.ToolState.init "k"
        ⟨true, Option.none, Option.none, 0, Option.none⟩ 0)
      [("query", PyVal.s "python")] =
      (⟨true, Option.none, Option.none, 0, some true⟩,
        BaseTool.cache_result BaseTool.ToolState.init "k"
          ⟨true, Option.none, Option.none, 0, Option.none⟩ 0, false) ∧
    WeatherTool.execute (fun _ => "k") WeatherTool.Resp.geoNoResults
      (WeatherTool.OWResp.exn "e") "" 10
      (BaseTool.cache_result BaseTool.ToolState.init "k"
        ⟨true, Option.none, Option.none, 0, Option.none⟩ 0)
      [("city", PyVal.s "Tokyo")] =
      (⟨true, Option.none, Option.none, 0, some true⟩,
        BaseTool.cache_result BaseTool.ToolState.init "k"
          ⟨true, Option.none, Option.none, 0, Option.none⟩ 0, false) :=
  C3_amended_cache_hit_tagged (fun _ => "k") 10
    (BaseTool.cache_result BaseTool.ToolState.init "k"
      ⟨true, Option.none, Option.none, 0, Option.none⟩ 0)
    (BaseTool.cache_result BaseTool.ToolState.init "k"
      ⟨true, Option.none, Option.none, 0, Option.none⟩ 0)
    [("query", PyVal.s "python")] [("city", PyVal.s "Tokyo")]
    ⟨true, Option.none, Option.none, 0, Option.none⟩
    ⟨true, Option.none, Option.none, 0, Option.none⟩
    GitHubTool.Resp.forbidden WeatherTool.Resp.geoNoResults
    (WeatherTool.OWResp.exn "e") "" rfl rfl

/-- Claim C4: a tool execution that returns a fallback outcome leaves the
tool cache unchanged (hence unchanged for the calls fingerprint), so a second
call with the identical parameters does not short-circuit into a cached
fallback: it issues the provider request again. Stated for both tools; the
lookup hypotheses say the fingerprint has no cache entry, which is the state
in which the source can produce a fallback outcome. -/
theorem C4_fallback_not_cached (md5 : String → String) (now now2 : Int)
    (stG stW : BaseTool.ToolState) (kwG kwW : PyDict)
    (respG respG2 : GitHubTool.Resp) (respW respW2 : WeatherTool.Resp)
    (ow ow2 : WeatherTool.OWResp) (api_key api_key2 : String)
    (hG : List.lookup (BaseTool.get_cache_key md5 kwG) stG.cache = Option.none)
    (hW : List.lookup (BaseTool.get_cache_key md5 kwW) stW.cache = Option.none)
    (hfbG : pyStr (pyGetD ((GitHubTool.execute md5 respG now stG kwG).1.data.getD [])
      "source" PyVal.null) = "fallback_data")
    (hfbW : pyStr (pyGetD
      ((WeatherTool.execute md5 respW ow api_key now stW kwW).1.data.getD [])
      "source" PyVal.null) = "fallback_data") :
    (GitHubTool.execute md5 respG now stG kwG).2.1 = stG ∧
    (GitHubTool.execute md5 respG2 now2
      (GitHubTool.execute md5 respG now stG kwG).2.1 kwG).2.2 = true ∧
    (WeatherTool.execute md5 respW ow api_key now stW kwW).2.1 = stW ∧
    (WeatherTool.execute md5 respW2 ow2 api_key2 now2
      (WeatherTool.execute md5 respW ow api_key now stW kwW).2.1 kwW).2.2 = true := by
  have hmG := get_cached_result_of_lookup_none stG (BaseTool.get_cache_key md5 kwG) now hG
  have hmW := get_cached_result_of_lookup_none stW (BaseTool.get_cache_key md5 kwW) now hW
  have hGst : (GitHubTool.execute md5 respG now stG kwG).2.1 = stG := by
    cases respG with
    | ok items tc =>
      exfalso
      simp only [GitHubTool.execute, hmG] at hfbG
      simp [Utils.format_response, pyGetD, List.lookup, pyStr] at hfbG
    | forbidden => simp only [GitHubTool.execute, hmG]
    | errStatus c =>
      simp only [GitHubTool.execute, hmG]
    | exn m => simp only [GitHubTool.execute, hmG]
  have hWst : (WeatherTool.execute md5 respW ow api_key now stW kwW).2.1 = stW := by
    cases respW with
    | wOk loc cur =>
      exfalso
      simp only [WeatherTool.execute, hmW] at hfbW
      simp [Utils.format_response, pyGetD, List.lookup, pyStr] at hfbW
    | geoRaise m => simp only [WeatherTool.execute, hmW]
    | wRaise l m => simp only [WeatherTool.execute, hmW]
    | geoStatus c =>
      simp only [WeatherTool.execute, hmW]
      split <;> rfl
    | geoNoResults =>
      simp only [WeatherTool.execute, hmW]
      split <;> rfl
    | wStatus l c =>
      simp only [WeatherTool.execute, hmW]
      split <;> rfl
  refine ⟨hGst, ?_, hWst, ?_⟩
  · rw [hGst]
    exact gh_execute_miss_net md5 respG2 now2 stG kwG
      (get_cached_result_of_lookup_none stG _ now2 hG)
  · rw [hWst]
    exact wx_execute_miss_net md5 respW2 ow2 api_key2 now2 stW kwW
      (get_cached_result_of_lookup_none stW _ now2 hW)

/-- Witness for C4: both tools produce a fallback outcome on an empty cache
(GitHub rate-limited, weather geocoding empty with no OpenWeatherMap key);
the caches stay empty and the follow-up calls hit the network again. -/
theorem C4_witness :
    (GitHubTool.execute (fun _ => "k") GitHubTool.Resp.forbidden 0
      BaseTool.ToolState.init [("query", PyVal.s "python")]).2.1 =
      BaseTool.ToolState.init ∧
    (GitHubTool.execute (fun _ => "k") GitHubTool.Resp.forbidden 5
      (GitHubTool.execute (fun _ => "k") GitHubTool.Resp.forbidden 0
        BaseTool.ToolState.init [("query", PyVal.s "python")]).2.1
      [("query", PyVal.s "python")]).2.2 = true ∧
    (WeatherTool.execute (fun _ => "k") WeatherTool.Resp.geoNoResults
      (WeatherTool.OWResp.exn "e") "" 0 BaseTool.ToolState.init
      [("city", PyVal.s "Tokyo")]).2.1 = BaseTool.ToolState.init ∧
    (WeatherTool.execute (fun _ => "k") WeatherTool.Resp.geoNoResults
      (WeatherTool.OWResp.exn "e") "" 5
      (WeatherTool.execute (fun _ => "k") WeatherTool.Resp.geoNoResults
        (WeatherTool.OWResp.exn "e") "" 0 BaseTool.ToolState.init
        [("city", PyVal.s "Tokyo")]).2.1
      [("city", PyVal.s "Tokyo")]).2.2 = true := by
  have h := C4_fallback_not_cached (fun _ => "k") 0 5
    BaseTool.ToolState.init BaseTool.ToolState.init
    [("query", PyVal.s "python")] [("city", PyVal.s "Tokyo")]
    GitHubTool.Resp.forbidden GitHubTool.Resp.forbidden
    WeatherTool.Resp.geoNoResults WeatherTool.Resp.geoNoResults
    (WeatherTool.OWResp.exn "e") (WeatherTool.OWResp.exn "e") "" ""
    rfl rfl (by decide) (by decide)
  exact ⟨h.1, h.2.1, h.2.2.1, h.2.2.2⟩

theorem decorated_gh_ok (md5 : String → String) (ghResps : Nat → GitHubTool.Resp)
    (now : Int) (ps : PyDict) (s : ExecutorAgent.ExecSt) :
    ExecutorAgent.decorated (ExecutorAgent.ghBody md5 ghResps now ps) s =
      (Except.ok (some (GitHubTool.execute md5 (ghResps s.idx) now s.gh ps).1),
        ExecutorAgent.ExecSt.mk
          (GitHubTool.execute md5 (ghResps s.idx) now s.gh ps).2.1 s.wx
          (s.idx + 1), 1) := rfl

theorem decorated_wx_ok (md5 : String → String) (wxResps : Nat → WeatherTool.Resp)
    (owResps : Nat → WeatherTool.OWResp) (api_key : String) (now : Int)
    (ps : PyDict) (s : ExecutorAgent.ExecSt) :
    ExecutorAgent.decorated
        (ExecutorAgent.wxBody md5 wxResps owResps api_key now ps) s =
      (Except.ok (some (WeatherTool.execute md5 (wxResps s.idx) (owResps s.idx)
          api_key now s.wx ps).1),
        ExecutorAgent.ExecSt.mk s.gh
          (WeatherTool.execute md5 (wxResps s.idx) (owResps s.idx)
            api_key now s.wx ps).2.1
          (s.idx + 1), 1) := rfl

theorem step_loop_invocations_le_one
    (call : ExecutorAgent.ExecSt →
      Except String (Option Utils.FResp) × ExecutorAgent.ExecSt × Nat)
    (hcall : ∀ s, ∃ r s1, call s = (Except.ok (some r), s1, 1))
    (stepd : LLMClient.RawStep) (tn : String) (s : ExecutorAgent.ExecSt)
    (fuel : Nat) :
    (ExecutorAgent.step_loop call stepd tn s fuel).2.2 ≤ 1 := by
  cases fuel with
  | zero => simp [ExecutorAgent.step_loop]
  | succ n =>
    obtain ⟨r, s1, hr⟩ := hcall s
    simp [ExecutorAgent.step_loop, hr]

/-- Claim C2: for every step and every provider-response sequence (including
arbitrary mixes of raised transport exceptions, 403 and other failure
statuses), the tool body is invoked at most Config.MAX_RETRIES = 3 times
before the executor accepts an outcome for the step. The source in fact makes
exactly one invocation on the tool path, because the tool bodies convert every
provider failure into a returned fallback or failure outcome instead of
raising through the retry wrappers. -/
theorem C2_retry_bound (md5 : String → String) (ghResps : Nat → GitHubTool.Resp)
    (wxResps : Nat → WeatherTool.Resp) (owResps : Nat → WeatherTool.OWResp)
    (api_key : String) (now : Int) (st : ExecutorAgent.ExecSt)
    (stepd : LLMClient.RawStep) :
    (ExecutorAgent.execute_step md5 ghResps wxResps owResps api_key now st
      stepd).2.2 ≤ Config.MAX_RETRIES := by
  simp only [ExecutorAgent.execute_step]
  split
  · split
    · refine le_trans (step_loop_invocations_le_one _ ?_ _ _ _ _) (by decide)
      intro s0
      exact ⟨_, _, decorated_gh_ok md5 ghResps now (stepd.parameters.getD []) s0⟩
    · simp
  · split
    · split
      · refine le_trans (step_loop_invocations_le_one _ ?_ _ _ _ _) (by decide)
        intro s0
        exact ⟨_, _, decorated_wx_ok md5 wxResps owResps api_key now
          (stepd.parameters.getD []) s0⟩
      · simp
    · simp

theorem hasKey_dictSet_self (d : PyDict) (k : String) (v : PyVal) :
    pyHasKey (dictSet d k v) k = true := by
  simp only [pyHasKey, lookup_dictSet_self, Option.isSome]

theorem hasKey_dictSet_ne (d : PyDict) (k k' : String) (v : PyVal)
    (h : k' ≠ k) : pyHasKey (dictSet d k v) k' = pyHasKey d k' := by
  simp only [pyHasKey, lookup_dictSet_ne d k k' v h]

theorem hasKey_after_gh_defaults (ps0 : PyDict) :
    pyHasKey (if pyHasKey (if pyHasKey ps0 "query" then ps0
        else dictSet ps0 "query" (.s "python")) "per_page" then
        (if pyHasKey ps0 "query" then ps0 else dictSet ps0 "query" (.s "python"))
      else dictSet (if pyHasKey ps0 "query" then ps0
        else dictSet ps0 "query" (.s "python")) "per_page" (.i 5)) "query" = true := by
  have hq : pyHasKey (if pyHasKey ps0 "query" then ps0
      else dictSet ps0 "query" (.s "python")) "query" = true := by
    by_cases h1 : pyHasKey ps0 "query" = true
    · rw [if_pos h1]
      exact h1
    · rw [if_neg h1]
      exact hasKey_dictSet_self ps0 "query" _
  by_cases h2 : pyHasKey (if pyHasKey ps0 "query" then ps0
      else dictSet ps0 "query" (.s "python")) "per_page" = true
  · rw [if_pos h2]
    exact hq
  · rw [if_neg h2]
    rw [hasKey_dictSet_ne _ "per_page" "query" _ (by decide)]
    exact hq

theorem validate_step_ok (i : Nat) (s : LLMClient.RawStep) :
    (PlannerAgent.validate_step i s).step = some ((i : Int) + 1) ∧
    (∃ t, (PlannerAgent.validate_step i s).tool = some t ∧
      PlannerAgent.toolRegistered t = true) ∧
    PlannerAgent.stepParamsOk (PlannerAgent.validate_step i s) = true := by
  obtain ⟨st, de, tl, ps⟩ := s
  cases tl with
  | none =>
    cases ps with
    | none =>
      refine ⟨rfl, ⟨"github_tool", rfl, by decide⟩, ?_⟩
      show GitHubTool.validate_parameters (dictSet (dictSet [] "query" (.s "python"))
        "per_page" (.i 5)) = true
      rw [GitHubTool.validate_parameters, hasKey_dictSet_ne _ _ _ _ (by decide)]
      exact hasKey_dictSet_self [] "query" _
    | some p =>
      refine ⟨rfl, ⟨"github_tool", rfl, by decide⟩, ?_⟩
      show GitHubTool.validate_parameters _ = true
      rw [GitHubTool.validate_parameters]
      exact hasKey_after_gh_defaults p
  | some t =>
    by_cases hreg : PlannerAgent.toolRegistered t = true
    · by_cases hg : t = "github_tool"
      · subst hg
        cases ps with
        | none =>
          refine ⟨rfl, ⟨"github_tool", rfl, by decide⟩, ?_⟩
          show GitHubTool.validate_parameters (dictSet (dictSet [] "query" (.s "python"))
            "per_page" (.i 5)) = true
          rw [GitHubTool.validate_parameters, hasKey_dictSet_ne _ _ _ _ (by decide)]
          exact hasKey_dictSet_self [] "query" _
        | some p =>
          refine ⟨rfl, ⟨"github_tool", rfl, by decide⟩, ?_⟩
          show GitHubTool.validate_parameters _ = true
          rw [GitHubTool.validate_parameters]
          exact hasKey_after_gh_defaults p
      · have hw : t = "weather_tool" := by
          revert hreg
          simp [PlannerAgent.toolRegistered, hg]
        subst hw
        cases ps with
        | none =>
          refine ⟨rfl, ⟨"weather_tool", rfl, by decide⟩, ?_⟩
          show WeatherTool.validate_parameters (dictSet [] "city" (.s "London")) = true
          rw [WeatherTool.validate_parameters]
          exact hasKey_dictSet_self [] "city" _
        | some p =>
          refine ⟨rfl, ⟨"weather_tool", rfl, by decide⟩, ?_⟩
          show WeatherTool.validate_parameters
            (if pyHasKey p "city" then p else dictSet p "city" (.s "London")) = true
          rw [WeatherTool.validate_parameters]
          by_cases hc : pyHasKey p "city" = true
          · rw [if_pos hc]
            exact hc
          · rw [if_neg hc]
            exact hasKey_dictSet_self p "city" _
    · simp only [PlannerAgent.validate_step]
      rw [if_neg hreg]
      cases ps with
      | none =>
        refine ⟨rfl, ⟨"github_tool", rfl, by decide⟩, ?_⟩
        show GitHubTool.validate_parameters (dictSet (dictSet [] "query" (.s "python"))
          "per_page" (.i 5)) = true
        rw [GitHubTool.validate_parameters, hasKey_dictSet_ne _ _ _ _ (by decide)]
        exact hasKey_dictSet_self [] "query" _
      | some p =>
        refine ⟨rfl, ⟨"github_tool", rfl, by decide⟩, ?_⟩
        show GitHubTool.validate_parameters _ = true
        rw [GitHubTool.validate_parameters]
        exact hasKey_after_gh_defaults p

theorem stepsValid_validateSteps (l : List LLMClient.RawStep) :
    ∀ i, PlannerAgent.stepsValid i (PlannerAgent.validateSteps i l) = true := by
  induction l with
  | nil => intro i; rfl
  | cons s rest ih =>
    intro i
    obtain ⟨h1, ⟨t, h2, h3⟩, h4⟩ := validate_step_ok i s
    simp [PlannerAgent.stepsValid, PlannerAgent.validateSteps, ih (i + 1), h1, h2,
      h3, h4]

theorem validateSteps_length (l : List LLMClient.RawStep) :
    ∀ i, (PlannerAgent.validateSteps i l).length = l.length := by
  induction l with
  | nil => intro i; rfl
  | cons s rest ih =>
    intro i
    simp [PlannerAgent.validateSteps, ih (i + 1)]

theorem validate_plan_valid (p : LLMClient.PlanDict) (h : p.plan ≠ []) :
    PlannerAgent.planValid (PlannerAgent.validate_plan p) = true := by
  unfold PlannerAgent.planValid PlannerAgent.validate_plan
  have hne : (PlannerAgent.validateSteps 0 p.plan).length ≠ 0 := by
    rw [validateSteps_length]
    exact fun hc => h (List.length_eq_zero.mp hc)
  simp [stepsValid_validateSteps, List.isEmpty_iff, List.length_eq_zero.not.mp hne]

theorem generate_rule_based_plan_ne_nil
    (rs : String → String → Option String) (txt : String) :
    (LLMClient.generate_rule_based rs txt).plan ≠ [] := by
  unfold LLMClient.generate_rule_based
  by_cases hg : LLMClient.githubTriggered txt = true <;>
    by_cases hw : LLMClient.weatherTriggered txt = true <;>
      simp [hg, hw]

/-- Claim C5: on the deterministic rule-based path (the deployment without a
local Ollama install), create_plan is total and always yields a structurally
valid plan: nonempty, 1-based contiguous step indices, registered tool names,
required parameters present (phrased through the tools own validate_parameters);
and when no tool keyword matches the text, the plan is exactly the single
default GitHub step. -/
theorem C5_create_plan_valid (reSearch : String → String → Option String)
    (text : String) :
    PlannerAgent.planValid
      (PlannerAgent.create_plan false Option.none reSearch text) = true ∧
    (LLMClient.githubTriggered text = false →
      LLMClient.weatherTriggered text = false →
      (PlannerAgent.create_plan false Option.none reSearch text).plan =
        [⟨some 1, some "Search GitHub for trending AI repositories",
          some "github_tool",
          some [("query", PyVal.s "artificial intelligence"),
            ("per_page", PyVal.i 5)]⟩]) := by
  constructor
  · unfold PlannerAgent.create_plan
    apply validate_plan_valid
    exact generate_rule_based_plan_ne_nil reSearch text
  · intro hg hw
    simp only [PlannerAgent.create_plan, LLMClient.generate_plan,
      LLMClient.generate_rule_based, hg, hw, Config.USE_FREE_LLM]
    rfl

/-- Witness for C5 at a text with no tool keyword. -/
theorem C5_witness :
    PlannerAgent.planValid (PlannerAgent.create_plan false Option.none
      (fun _ _ => Option.none) "hello") = true ∧
    (PlannerAgent.create_plan false Option.none (fun _ _ => Option.none)
      "hello").plan =
      [⟨some 1, some "Search GitHub for trending AI repositories",
        some "github_tool",
        some [("query", PyVal.s "artificial intelligence"),
          ("per_page", PyVal.i 5)]⟩] :=
  ⟨(C5_create_plan_valid (fun _ _ => Option.none) "hello").1,
    (C5_create_plan_valid (fun _ _ => Option.none) "hello").2 (by decide)
      (by decide)⟩

/-- Claim C9: when the text matches both keyword sets, the planner emits
exactly two steps, the GitHub search step first and the weather step second
with indices 1 and 2, independent of where the keywords sit in the text. -/
theorem C9_both_keywords_two_steps (reSearch : String → String → Option String)
    (text : String)
    (hg : LLMClient.githubTriggered text = true)
    (hw : LLMClient.weatherTriggered text = true) :
    (PlannerAgent.create_plan false Option.none reSearch text).plan.length = 2 ∧
    ((PlannerAgent.create_plan false Option.none reSearch text).plan.map
      (fun s => s.tool)) = [some "github_tool", some "weather_tool"] ∧
    ((PlannerAgent.create_plan false Option.none reSearch text).plan.map
      (fun s => s.step)) = [some 1, some 2] := by
  refine ⟨?_, ?_, ?_⟩ <;>
    · simp only [PlannerAgent.create_plan, LLMClient.generate_plan,
        LLMClient.generate_rule_based, hg, hw, Config.USE_FREE_LLM]
      rfl

/-- Witness for C9 at a text carrying a weather keyword before a GitHub
keyword. -/
theorem C9_witness :
    (PlannerAgent.create_plan false Option.none (fun _ _ => Option.none)
      "weather in Tokyo and repositories").plan.length = 2 ∧
    ((PlannerAgent.create_plan false Option.none (fun _ _ => Option.none)
      "weather in Tokyo and repositories").plan.map (fun s => s.tool)) =
      [some "github_tool", some "weather_tool"] ∧
    ((PlannerAgent.create_plan false Option.none (fun _ _ => Option.none)
      "weather in Tokyo and repositories").plan.map (fun s => s.step)) =
      [some 1, some 2] :=
  C9_both_keywords_two_steps (fun _ _ => Option.none)
    "weather in Tokyo and repositories" (by decide) (by decide)

/-- Claim C1 amended: the completeness score the verifier reports is the fixed
three-point scale of the source, not a proportional percentage: 100 when every
result succeeded (and there is at least one), 50 when some but not all
succeeded, and 0 when none succeeded, including the empty-results case. -/
theorem C1_amended_score_scale (now : Int) (ui : String)
    (plan : LLMClient.PlanDict) (results : List ExecutorAgent.ExecResult) :
    (VerifierAgent.verify_results now ui plan
      results).verification.completeness_score =
      (if 0 < results.length ∧
          (results.filter (fun r => r.success)).length = results.length then 100
        else if 0 < (results.filter (fun r => r.success)).length then 50
        else 0) := by
  unfold VerifierAgent.verify_results
  by_cases hemp : (results.filter (fun r => r.success)).isEmpty = true
  · rw [if_pos hemp]
    have hzero : (results.filter (fun r => r.success)).length = 0 := by
      simpa [List.isEmpty_iff, List.length_eq_zero] using hemp
    simp only [VerifierAgent.handle_all_failed]
    split_ifs with h1 h2
    · omega
    · omega
    · rfl
  · rw [if_neg hemp]
    have hpos : 0 < (results.filter (fun r => r.success)).length := by
      rcases Nat.eq_zero_or_pos (results.filter (fun r => r.success)).length with h | h
      · exact absurd (by simpa [List.isEmpty_iff, List.length_eq_zero] using h) hemp
      · exact h
    simp only [LLMClient.verify_results, Bool.and_eq_true, beq_iff_eq,
      decide_eq_true_eq, gt_iff_lt]

/-- Counterexample for C1 as stated: with two successes out of three results
the report scores 50, while the claimed formula (100 times 2/3 rounded to one
decimal place) gives 66.7. -/
theorem C1_counterexample :
    (VerifierAgent.verify_results 0 "t" ⟨[], "", Option.none⟩
      [{ success := true }, { success := true },
        { success := false, error := some "boom" }]).verification.completeness_score
      = 50 ∧
    specCompletenessScore 2 3 = 667 / 10 ∧
    ((50 : ℚ) ≠ 667 / 10) := by
  refine ⟨rfl, ?_, by norm_num⟩
  unfold specCompletenessScore
  rw [if_neg (by norm_num), round_eq]
  norm_num

/-- Claim C6 amended: when at least one result succeeded, the issues list of
the structured report is always empty (missing_data is hard-coded empty), no
matter how many results failed; only when every result failed does the report
carry the per-failure error texts, in order, in the flat failure output, with
missing_data reduced to the all-failed marker and the fixed remediation
suggestion lists. -/
theorem C6_amended_issues (now : Int) (ui : String) (plan : LLMClient.PlanDict)
    (results : List ExecutorAgent.ExecResult) :
    ((results.filter (fun r => r.success)).isEmpty = false →
      VerifierAgent.reportIssues
        (VerifierAgent.verify_results now ui plan results) = some []) ∧
    ((results.filter (fun r => r.success)).isEmpty = true →
      (VerifierAgent.verify_results now ui plan results).final_output =
        VerifierAgent.FinalOutput.failed "failed" ui
          (results.map (fun r => r.error.getD "Unknown error"))
          ["Try rephrasing your request",
            "Check if the requested information is available",
            "Try a simpler request first"] ∧
      (VerifierAgent.verify_results now ui plan
        results).verification.missing_data = ["All execution steps failed"] ∧
      (VerifierAgent.verify_results now ui plan
        results).verification.suggestions =
        ["Check API availability", "Verify parameters", "Try different tools"]) := by
  constructor
  · intro hne
    unfold VerifierAgent.verify_results
    rw [if_neg (by simp [hne])]
    rfl
  · intro hemp
    have hall : results.filter (fun r => !r.success) = results := by
      rw [List.filter_eq_self]
      intro a ha
      have hfa := List.filter_eq_nil_iff.mp
        (by simpa [List.isEmpty_iff] using hemp) a ha
      simp only [Bool.not_eq_true'] at hfa ⊢
      simp [hfa]
    unfold VerifierAgent.verify_results
    rw [if_pos hemp]
    refine ⟨?_, rfl, rfl⟩
    simp [VerifierAgent.handle_all_failed, hall]

/-- Counterexample for C6 as stated: one success plus one failure with error
text boom, yet the report issues list is empty rather than listing boom. -/
theorem C6_counterexample :
    VerifierAgent.reportIssues (VerifierAgent.verify_results 0 "t"
      ⟨[], "", Option.none⟩
      [{ success := true }, { success := false, error := some "boom" }]) =
      some [] ∧
    ([] : List String) ≠ ["boom"] :=
  ⟨rfl, by decide⟩

/-- Witness for C6 amended at one all-failed input and one mixed input. -/
theorem C6_witness :
    VerifierAgent.reportIssues (VerifierAgent.verify_results 0 "t"
      ⟨[], "", Option.none⟩
      [{ success := true }, { success := false, error := some "x" }]) = some [] ∧
    (VerifierAgent.verify_results 0 "t" ⟨[], "", Option.none⟩
      [{ success := false, error := some "a" },
        { success := false, error := some "b" }]).final_output =
      VerifierAgent.FinalOutput.failed "failed" "t" ["a", "b"]
        ["Try rephrasing your request",
          "Check if the requested information is available",
          "Try a simpler request first"] :=
  ⟨(C6_amended_issues 0 "t" ⟨[], "", Option.none⟩
      [{ success := true }, { success := false, error := some "x" }]).1 rfl,
    ((C6_amended_issues 0 "t" ⟨[], "", Option.none⟩
      [{ success := false, error := some "a" },
        { success := false, error := some "b" }]).2 rfl).1⟩

theorem readObj_writeObj_self : ∀ (h : RefModel.Heap) (a : Nat) (o : PyDict),
    a < h.length → RefModel.readObj (RefModel.writeObj h a o) a = o
  | [], a, o, ha => by simp at ha
  | x :: xs, 0, o, _ => rfl
  | x :: xs, Nat.succ n, o, ha => by
    have ih := readObj_writeObj_self xs n o (by simpa using ha)
    simpa [RefModel.readObj, RefModel.writeObj, List.set] using ih

theorem writeObj_length (h : RefModel.Heap) (a : Nat) (o : PyDict) :
    (RefModel.writeObj h a o).length = h.length := by
  simp [RefModel.writeObj]

/-- Claim C10: the cache read hands back the stored dict by reference: on a
hit, the execute path returns the stored address after mutating the object
behind it (cached = True), without allocating a copy, and the executor then
writes the step and tool keys into the same object — so the dict the cache
entry points at no longer equals the payload that was originally stored. The
hypothesis that the stored payload has no cached key holds for every payload
the source ever stores (format_response emits no such key). -/
theorem C10_cache_hit_mutates_entry (h : RefModel.Heap) (st : RefModel.ToolState)
    (key : String) (now : Int) (addr : Nat) (sv : PyVal) (tn : String)
    (hhit : RefModel.get_cached_result st key now = some addr)
    (ha : addr < h.length)
    (hc : List.lookup "cached" (RefModel.readObj h addr) = Option.none) :
    RefModel.execute_cache_hit h st key now =
      some (addr, RefModel.writeObj h addr
        (dictSet (RefModel.readObj h addr) "cached" (PyVal.b true))) ∧
    (RefModel.writeObj h addr
      (dictSet (RefModel.readObj h addr) "cached" (PyVal.b true))).length =
      h.length ∧
    RefModel.readObj (RefModel.writeObj h addr
      (dictSet (RefModel.readObj h addr) "cached" (PyVal.b true))) addr ≠
      RefModel.readObj h addr ∧
    RefModel.readObj (RefModel.executor_tag
      (RefModel.writeObj h addr
        (dictSet (RefModel.readObj h addr) "cached" (PyVal.b true))) addr sv tn)
      addr ≠ RefModel.readObj h addr := by
  have hlen1 : (dictSet (RefModel.readObj h addr) "cached" (PyVal.b true)).length =
      (RefModel.readObj h addr).length + 1 :=
    dictSet_length_of_absent (RefModel.readObj h addr) "cached" (PyVal.b true) hc
  have hw1 : (RefModel.writeObj h addr
      (dictSet (RefModel.readObj h addr) "cached" (PyVal.b true))).length =
      h.length := writeObj_length h addr _
  have hr1 : RefModel.readObj (RefModel.writeObj h addr
      (dictSet (RefModel.readObj h addr) "cached" (PyVal.b true))) addr =
      dictSet (RefModel.readObj h addr) "cached" (PyVal.b true) :=
    readObj_writeObj_self h addr _ ha
  refine ⟨?_, hw1, ?_, ?_⟩
  · unfold RefModel.execute_cache_hit
    rw [hhit]
  · rw [hr1]
    intro hcontra
    have := congrArg List.length hcontra
    omega
  · unfold RefModel.executor_tag
    have ha1 : addr < (RefModel.writeObj h addr
        (dictSet (RefModel.readObj h addr) "cached" (PyVal.b true))).length := by
      omega
    have hr2 : RefModel.readObj (RefModel.writeObj
        (RefModel.writeObj h addr
          (dictSet (RefModel.readObj h addr) "cached" (PyVal.b true))) addr
        (dictSet (RefModel.readObj (RefModel.writeObj h addr
          (dictSet (RefModel.readObj h addr) "cached" (PyVal.b true))) addr)
          "step" sv)) addr =
        dictSet (RefModel.readObj (RefModel.writeObj h addr
          (dictSet (RefModel.readObj h addr) "cached" (PyVal.b true))) addr)
          "step" sv :=
      readObj_writeObj_self _ addr _ ha1
    have ha2 : addr < (RefModel.writeObj
        (RefModel.writeObj h addr
          (dictSet (RefModel.readObj h addr) "cached" (PyVal.b true))) addr
        (dictSet (RefModel.readObj (RefModel.writeObj h addr
          (dictSet (RefModel.readObj h addr) "cached" (PyVal.b true))) addr)
          "step" sv)).length := by
      rw [writeObj_length]
      omega
    rw [readObj_writeObj_self _ addr _ ha2, hr2, hr1]
    have hge1 := dictSet_length_ge
      (dictSet (dictSet (RefModel.readObj h addr) "cached" (PyVal.b true))
        "step" sv) "tool" (PyVal.s tn)
    have hge2 := dictSet_length_ge
      (dictSet (RefModel.readObj h addr) "cached" (PyVal.b true)) "step" sv
    intro hcontra
    have hlc := congrArg List.length hcontra
    omega

/-- Witness for C10: a one-object heap holding the stored payload of a cache
entry; the hit mutates that very object. -/
theorem C10_witness :
    RefModel.execute_cache_hit [[("success", PyVal.b true)]]
      ⟨[("k", 0, 0)], 300⟩ "k" 10 =
      some (0, RefModel.writeObj [[("success", PyVal.b true)]] 0
        (dictSet (RefModel.readObj [[("success", PyVal.b true)]] 0) "cached"
          (PyVal.b true))) ∧
    RefModel.readObj (RefModel.writeObj [[("success", PyVal.b true)]] 0
      (dictSet (RefModel.readObj [[("success", PyVal.b true)]] 0) "cached"
        (PyVal.b true))) 0 ≠
      RefModel.readObj [[("success", PyVal.b true)]] 0 :=
  ⟨(C10_cache_hit_mutates_entry [[("success", PyVal.b true)]]
      ⟨[("k", 0, 0)], 300⟩ "k" 10 0 (PyVal.i 1) "github_tool" (by decide)
      (by decide) rfl).1,
    (C10_cache_hit_mutates_entry [[("success", PyVal.b true)]]
      ⟨[("k", 0, 0)], 300⟩ "k" 10 0 (PyVal.i 1) "github_tool" (by decide)
      (by decide) rfl).2.2.1⟩
